import Mathlib

/-!
Shallow embedding of `src/app.py` (launcher-api): a Flask backend with
JWT-based register/login, JSON content endpoints (`/version`, `/news`,
`/mods`, `/server_status`), and an admin merge-update of `server.json`.

Python dicts holding JSON documents are modelled as association lists in
insertion order; `dict.update` / key assignment replace the first matching
key or append.  Times (`time.time()`) are explicit `Int` parameters.  The
file system under `data/` is an association list from file names to parsed
JSON content; `read_json_file` is a lookup.
-/

namespace LauncherApi

/-- JSON values as produced by `json.load`. -/
inductive Json where
  | null : Json
  | bool (b : Bool) : Json
  | num (n : Int) : Json
  | str (s : String) : Json
  | arr (elems : List Json) : Json
  | obj (fields : List (String × Json)) : Json

/-- Python `str.strip()`: drop leading and trailing whitespace. -/
def pyStrip (s : String) : String :=
  ⟨((s.data.dropWhile Char.isWhitespace).reverse.dropWhile
      Char.isWhitespace).reverse⟩

/-- Python truthiness of a string: only `""` is falsy. -/
def strEmpty (s : String) : Bool :=
  s.data.isEmpty

/-- Python truthiness of a parsed JSON value: `None`, `False`, `0`, `""`,
`[]` and `{}` are falsy. -/
def Json.isFalsy : Json → Bool
  | .null => true
  | .bool b => !b
  | .num n => n == 0
  | .str s => strEmpty s
  | .arr elems => elems.isEmpty
  | .obj fields => fields.isEmpty

/-- Python `a or b` on two optional JSON reads (`None` and falsy values
fall through to the right operand). -/
def pyOrJson (a b : Option Json) : Option Json :=
  match a with
  | some j => if j.isFalsy then b else some j
  | none => b

/-- Python `a or b` on two optional strings (`None` and `""` fall through). -/
def pyOrStr (a b : Option String) : Option String :=
  match a with
  | some s => if strEmpty s then b else some s
  | none => b

/-- Lookup of a key in a JSON object / dict modelled as an association
list (first occurrence wins, as keys are unique in Python dicts). -/
def lookupKey (kvs : List (String × Json)) (k : String) : Option Json :=
  (kvs.find? (fun p => p.1 == k)).map Prod.snd

/-- Python `d[k] = v`: replace the (first) binding of `k`, or append a new
binding at the end, preserving insertion order. -/
def setKey : List (String × Json) → String → Json → List (String × Json)
  | [], k, v => [(k, v)]
  | (k', v') :: rest, k, v =>
      if k' == k then (k, v) :: rest else (k', v') :: setKey rest k v

/-- Python `d.update(p)`: assign every binding of `p` into `d` in order. -/
def dictUpdate (d p : List (String × Json)) : List (String × Json) :=
  p.foldl (fun acc kv => setKey acc kv.1 kv.2) d

/-- The `data/` directory: parsed JSON content per file name. -/
abbrev FileStore := List (String × Json)

/-- `read_json_file(name)`: `None` when the file is absent, its parsed
JSON content otherwise. -/
def read_json_file (fs : FileStore) (name : String) : Option Json :=
  lookupKey fs name

/-- `SECRET_KEY` (default value; also the admin secret, as in the code). -/
def SECRET_KEY : String := "replace_this_with_a_secure_secret"

/-- `TOKEN_EXP_SECONDS = 60 * 60 * 24 * 7`. -/
def TOKEN_EXP_SECONDS : Int := 60 * 60 * 24 * 7

/-- The JWT claim set built by `create_token`. -/
structure Payload where
  uid : Nat
  username : String
  iat : Int
  exp : Int
  deriving Repr, DecidableEq

/-- A signed token: the claims plus the key its HMAC signature was made
with.  The signature of an HS256 JWT is modelled abstractly as the signing
key itself (signature verification = key equality), since the claims are
carried alongside in the encoded token. -/
structure Token where
  payload : Payload
  signedWith : String
  deriving Repr, DecidableEq

/-- `create_token(user_id, username)` at current time `now`. -/
def create_token (user_id : Nat) (username : String) (now : Int) : Token :=
  { payload := { uid := user_id, username := username
                 iat := now, exp := now + TOKEN_EXP_SECONDS }
    signedWith := SECRET_KEY }

/-- `verify_token(token)` at current time `now`: PyJWT's `decode` checks the
signature against `SECRET_KEY` and raises `ExpiredSignatureError` when
`exp < now`; any failure is caught and returned as `None`. -/
def verify_token (token : Token) (now : Int) : Option Payload :=
  if token.signedWith = SECRET_KEY ∧ now ≤ token.payload.exp then
    some token.payload
  else none

/-- A salted password verifier, as stored by
`werkzeug.security.generate_password_hash`.  The one-way hash is idealised
as collision-free, so the digest is modelled by the password itself and
`check_password_hash` by equality of digests; the salt records that two
hashes of one password may differ. -/
structure PwHash where
  salt : Nat
  digest : String
  deriving Repr, DecidableEq

def generate_password_hash (salt : Nat) (password : String) : PwHash :=
  { salt := salt, digest := password }

def check_password_hash (h : PwHash) (password : String) : Bool :=
  h.digest == password

/-- A row of the `users` table. -/
structure UserRow where
  id : Nat
  username : String
  password_hash : PwHash
  created_at : Int
  deriving Repr, DecidableEq

/-- The SQLite database: the `users` rows in insertion order plus the next
`AUTOINCREMENT` id. -/
structure DB where
  users : List UserRow
  nextId : Nat
  deriving Repr, DecidableEq

/-- A freshly initialised database (`AUTOINCREMENT` starts at 1). -/
def freshDB : DB := { users := [], nextId := 1 }

/-- `SELECT ... FROM users WHERE username=?` (exact match). -/
def findUser (db : DB) (username : String) : Option UserRow :=
  db.users.find? (fun u => u.username == username)

/-- A request body for `/register` and `/login`; absent fields are `none`
(`body.get` returns `None`). -/
structure ReqBody where
  username : Option String
  password : Option String
  deriving Repr, DecidableEq

/-- Outcome of `/register` and `/login`: `ok` is the 200 JSON body
`{"status": "ok", "token": ..., "username": ...}`; `err` carries the HTTP
status and the `message` field of the error body. -/
inductive AuthResult where
  | ok (token : Token) (username : String)
  | err (status : Nat) (message : String)
  deriving Repr, DecidableEq

/-- The `/register` handler: trims the username, rejects empty fields with
400, duplicate usernames with 409, otherwise inserts the new row and
returns a token.  `salt` feeds `generate_password_hash`. -/
def register (db : DB) (now : Int) (salt : Nat) (body : ReqBody) :
    AuthResult × DB :=
  let username := pyStrip (body.username.getD "")
  let password := body.password.getD ""
  if strEmpty username || strEmpty password then
    (.err 400 "username and password required", db)
  else
    match findUser db username with
    | some _ => (.err 409 "username already exists", db)
    | none =>
        let pw_hash := generate_password_hash salt password
        let user_id := db.nextId
        let db' : DB :=
          { users := db.users ++ [⟨user_id, username, pw_hash, now⟩]
            nextId := user_id + 1 }
        (.ok (create_token user_id username now) username, db')

/-- The `/login` handler: trims the username, rejects empty fields with
400; an unknown username and a failing password check both yield the same
401 `"invalid credentials"` body. -/
def login (db : DB) (now : Int) (body : ReqBody) : AuthResult :=
  let username := pyStrip (body.username.getD "")
  let password := body.password.getD ""
  if strEmpty username || strEmpty password then
    .err 400 "username and password required"
  else
    match findUser db username with
    | none => .err 401 "invalid credentials"
    | some row =>
        if check_password_hash row.password_hash password then
          .ok (create_token row.id username now) username
        else
          .err 401 "invalid credentials"

/-- Outcome of a JSON content endpoint: a 200 JSON body or a 404 with the
`error` message of the body. -/
inductive ContentResp where
  | ok (doc : Json)
  | notFound (message : String)

/-- The `/version` handler:
`data = read_json_file("version.json") or read_json_file("update.json")`,
404 if `not data`, else the data. -/
def version_endpoint (fs : FileStore) : ContentResp :=
  match pyOrJson (read_json_file fs "version.json")
      (read_json_file fs "update.json") with
  | some j => if j.isFalsy then .notFound "version file not found" else .ok j
  | none => .notFound "version file not found"

/-- The `/news` handler: the parsed `news.json` when truthy, else the
default body `{"news": []}`. -/
def news_endpoint (fs : FileStore) : Json :=
  match read_json_file fs "news.json" with
  | some j => if j.isFalsy then Json.obj [("news", Json.arr [])] else j
  | none => Json.obj [("news", Json.arr [])]

/-- The `/mods` handler: the parsed `mods.json` when truthy, else the
default body `{"mods": []}`. -/
def mods_endpoint (fs : FileStore) : Json :=
  match read_json_file fs "mods.json" with
  | some j => if j.isFalsy then Json.obj [("mods", Json.arr [])] else j
  | none => Json.obj [("mods", Json.arr [])]

/-- Result of `/admin/update_server`: HTTP status, the `server` field of
the 200 body (the merged document), and the file store after the handler
ran. -/
structure AdminOut where
  status : Nat
  server : Option (List (String × Json))
  fs : FileStore

/-- The `/admin/update_server` handler.
`secret = headers.get("X-ADMIN-SECRET") or args.get("secret")`; 401 when
`not secret or secret != SECRET_KEY`.  Otherwise
`srv = read_json_file("server.json") or {}`, `srv.update(body)`,
`srv["updated_at"] = now`, write back, return
`{"status": "ok", "server": srv}`.  `none` models the uncaught
`AttributeError` Python raises when the stored truthy document is not a
dict (`srv.update` on a non-dict). -/
def admin_update_server (headerSecret querySecret : Option String)
    (fs : FileStore) (body : List (String × Json)) (now : Int) :
    Option AdminOut :=
  let secret := pyOrStr headerSecret querySecret
  let bad := match secret with
    | none => true
    | some s => strEmpty s || s != SECRET_KEY
  if bad then some ⟨401, none, fs⟩
  else
    match pyOrJson (read_json_file fs "server.json") (some (Json.obj [])) with
    | some (Json.obj kvs) =>
        let srv := setKey (dictUpdate kvs body) "updated_at" (Json.num now)
        some ⟨200, some srv, setKey fs "server.json" (Json.obj srv)⟩
    | _ => none

/-- Outcome of the `/me` endpoint. -/
inductive MeResult where
  | ok (username : String)
  | unauthorized
  deriving Repr, DecidableEq

/-- Modelled from the spec: the repository's `src/` has no `/me` handler
(the spec's endpoint table lists `GET /me` taking a bearer token and
answering `{username}` on success, 401 otherwise).  Validation follows the
signed-token session validator of §4.3: decode and verify the token, any
failure is a generic unauthorized outcome. -/
def me_endpoint (bearer : Option Token) (now : Int) : MeResult :=
  match bearer with
  | none => .unauthorized
  | some t =>
      match verify_token t now with
      | none => .unauthorized
      | some p => .ok p.username

/-- An entry of the opaque-variant session table. -/
structure SessionEntry where
  username : String
  created_at : Int
  deriving Repr, DecidableEq

/-- The opaque-variant session table: token string → session entry. -/
abbrev Sessions := List (String × SessionEntry)

/-- Modelled from the spec: the opaque-reference session validator of
§4.3 is not under `src/` (only the signed variant is).  `validate(token)`
looks the token up in the session table; `Invalid` (`none`) if absent. -/
def validate (sessions : Sessions) (token : String) : Option SessionEntry :=
  (sessions.find? (fun p => p.1 == token)).map Prod.snd

/-- Modelled from the spec: `invalidate(token)` of §4.3 (opaque variant)
removes the entry from the session table; removing an absent token is a
no-op. -/
def invalidate (sessions : Sessions) (token : String) : Sessions :=
  sessions.filter (fun p => p.1 != token)

/-- Modelled from the spec: the `/logout` endpoint (opaque variant) takes
an optional token from body or header, invalidates it, and always answers
200. -/
def logout (sessions : Sessions) (token : Option String) : Nat × Sessions :=
  (200, match token with
        | none => sessions
        | some t => invalidate sessions t)

/-! ### Lookup lemmas for the dict model -/

theorem lookupKey_setKey_self (m : List (String × Json)) (k : String)
    (v : Json) : lookupKey (setKey m k v) k = some v := by
  induction m with
  | nil => simp [lookupKey, setKey]
  | cons hd tl ih =>
      obtain ⟨k', v'⟩ := hd
      by_cases h : k' = k
      · subst h
        simp [lookupKey, setKey]
      · have hb : (k' == k) = false := by simp [h]
        simp only [setKey, hb, Bool.false_eq_true, if_false]
        simpa [lookupKey, hb] using ih

theorem lookupKey_setKey_ne (m : List (String × Json)) (k k' : String)
    (v : Json) (h : k ≠ k') :
    lookupKey (setKey m k' v) k = lookupKey m k := by
  have hb : (k' == k) = false := by simp [Ne.symm h]
  induction m with
  | nil => simp [lookupKey, setKey, hb]
  | cons hd tl ih =>
      obtain ⟨a, b⟩ := hd
      by_cases ha : a = k'
      · subst ha
        simp [lookupKey, setKey, hb]
      · have hab : (a == k') = false := by simp [ha]
        simp only [setKey, hab, Bool.false_eq_true, if_false]
        by_cases hak : a = k
        · subst hak
          simp [lookupKey]
        · have hakb : (a == k) = false := by simp [hak]
          simpa [lookupKey, hakb] using ih

theorem lookupKey_dictUpdate_of_not_mem (d p : List (String × Json))
    (k : String) (h : k ∉ p.map Prod.fst) :
    lookupKey (dictUpdate d p) k = lookupKey d k := by
  induction p generalizing d with
  | nil => rfl
  | cons kv rest ih =>
      simp only [List.map_cons, List.mem_cons, not_or] at h
      obtain ⟨h1, h2⟩ := h
      show lookupKey (dictUpdate (setKey d kv.1 kv.2) rest) k = lookupKey d k
      rw [ih (setKey d kv.1 kv.2) h2, lookupKey_setKey_ne d k kv.1 kv.2 h1]

/-! ### Claims -/

/-- C1: a token issued by `create_token` for user `(uid, username)` is
accepted by `verify_token` at any time `t` before its expires-at claim,
and the returned payload identifies the same user: same `uid` and
`username` (with `iat = issuedAt` and
`exp = issuedAt + TOKEN_EXP_SECONDS`). -/
theorem C1_create_token_verifies (uid : Nat) (username : String)
    (issuedAt t : Int)
    (h : t < (create_token uid username issuedAt).payload.exp) :
    verify_token (create_token uid username issuedAt) t =
      some { uid := uid, username := username, iat := issuedAt
             exp := issuedAt + TOKEN_EXP_SECONDS } := by
  unfold verify_token
  rw [if_pos ⟨rfl, le_of_lt h⟩]
  rfl

/-- Witness for C1 at a concrete user and time. -/
theorem C1_witness :
    verify_token (create_token 7 "alice" 100) 5000 =
      some { uid := 7, username := "alice", iat := 100
             exp := 100 + TOKEN_EXP_SECONDS } :=
  C1_create_token_verifies 7 "alice" 100 5000 (by decide)

/-- C2: a token whose `exp` claim is in the past fails `verify_token`
even when its signature is correct (the statement holds for every token,
correctly signed or not), and keeps failing at every later time. -/
theorem C2_expired_token_never_validates (token : Token) (now : Int)
    (h : token.payload.exp < now) :
    verify_token token now = none ∧
      ∀ later : Int, now ≤ later → verify_token token later = none := by
  constructor
  · unfold verify_token
    rw [if_neg]
    intro hc
    exact absurd hc.2 (not_le.mpr h)
  · intro later hl
    unfold verify_token
    rw [if_neg]
    intro hc
    exact absurd hc.2 (not_le.mpr (lt_of_lt_of_le h hl))

/-- Witness for C2 on a correctly signed token one second past expiry. -/
theorem C2_witness :
    verify_token (create_token 7 "alice" 0) 604801 = none ∧
      ∀ later : Int, 604801 ≤ later →
        verify_token (create_token 7 "alice" 0) later = none :=
  C2_expired_token_never_validates (create_token 7 "alice" 0) 604801
    (by decide)

/-- C3 fails as stated: `" "` is a non-empty username absent from the
fresh user table, with non-empty password, yet `register` answers 400
(the handler trims the username first), not ok. -/
theorem C3_counterexample :
    " " ≠ "" ∧ findUser freshDB " " = none ∧
      (register freshDB 0 0 ⟨some " ", some "pw"⟩).1 =
        .err 400 "username and password required" :=
  ⟨by decide, rfl, by decide⟩

/-- C3 (amended): for a username non-empty after trimming and a non-empty
password, registering while the trimmed username is absent from the user
table succeeds with a token and that username, and a second registration
of the same username answers 409 "username already exists" and leaves the
user table unchanged. -/
theorem C3_register_then_conflict (db : DB) (now now2 : Int)
    (salt salt2 : Nat) (u p : String)
    (hu : strEmpty (pyStrip u) = false) (hp : strEmpty p = false)
    (habs : findUser db (pyStrip u) = none) :
    (register db now salt ⟨some u, some p⟩).1 =
        .ok (create_token db.nextId (pyStrip u) now) (pyStrip u) ∧
      register (register db now salt ⟨some u, some p⟩).2 now2 salt2
          ⟨some u, some p⟩ =
        (.err 409 "username already exists",
          (register db now salt ⟨some u, some p⟩).2) := by
  have hcond : (strEmpty (pyStrip u) || strEmpty p) = false := by
    rw [hu, hp]; rfl
  have hreg : register db now salt ⟨some u, some p⟩ =
      (.ok (create_token db.nextId (pyStrip u) now) (pyStrip u),
        ⟨db.users ++ [⟨db.nextId, pyStrip u, ⟨salt, p⟩, now⟩],
          db.nextId + 1⟩) := by
    simp only [register, Option.getD_some]
    rw [hcond]
    simp only [Bool.false_eq_true, if_false]
    rw [habs]
    rfl
  have hfound :
      findUser (⟨db.users ++ [⟨db.nextId, pyStrip u, ⟨salt, p⟩, now⟩],
          db.nextId + 1⟩ : DB) (pyStrip u) =
        some ⟨db.nextId, pyStrip u, ⟨salt, p⟩, now⟩ := by
    unfold findUser at habs ⊢
    rw [List.find?_append, habs]
    simp
  constructor
  · rw [hreg]
  · rw [hreg]
    simp only [register, Option.getD_some]
    rw [hcond]
    simp only [Bool.false_eq_true, if_false]
    rw [hfound]

/-- Witness for C3 (amended) on a fresh store and the user `bob`. -/
theorem C3_witness :
    (register freshDB 0 0 ⟨some "bob", some "pw"⟩).1 =
        .ok (create_token freshDB.nextId (pyStrip "bob") 0) (pyStrip "bob") ∧
      register (register freshDB 0 0 ⟨some "bob", some "pw"⟩).2 5 1
          ⟨some "bob", some "pw"⟩ =
        (.err 409 "username already exists",
          (register freshDB 0 0 ⟨some "bob", some "pw"⟩).2) :=
  C3_register_then_conflict freshDB 0 5 0 1 "bob" "pw" (by decide)
    (by decide) rfl

/-- C4: the end-to-end scenario on a fresh store: registering
`alice`/`pw123` answers ok with a token and stores the row; logging in
with the same credentials answers ok with a (fresh) token; `/me` under
that bearer token answers `alice` while the token is unexpired; logging
in with a wrong password answers 401. -/
theorem C4_end_to_end (t1 t2 t3 : Int) (s1 : Nat)
    (hexp : t3 ≤ t2 + TOKEN_EXP_SECONDS) :
    register freshDB t1 s1 ⟨some "alice", some "pw123"⟩ =
        (.ok (create_token 1 "alice" t1) "alice",
          ⟨[⟨1, "alice", ⟨s1, "pw123"⟩, t1⟩], 2⟩) ∧
      login (⟨[⟨1, "alice", ⟨s1, "pw123"⟩, t1⟩], 2⟩ : DB) t2
          ⟨some "alice", some "pw123"⟩ =
        .ok (create_token 1 "alice" t2) "alice" ∧
      me_endpoint (some (create_token 1 "alice" t2)) t3 = .ok "alice" ∧
      login (⟨[⟨1, "alice", ⟨s1, "pw123"⟩, t1⟩], 2⟩ : DB) t2
          ⟨some "alice", some "wrong"⟩ =
        .err 401 "invalid credentials" := by
  refine ⟨rfl, rfl, ?_, rfl⟩
  have hv : verify_token (create_token 1 "alice" t2) t3 =
      some { uid := 1, username := "alice", iat := t2
             exp := t2 + TOKEN_EXP_SECONDS } := by
    unfold verify_token
    rw [if_pos ⟨rfl, hexp⟩]
    rfl
  simp [me_endpoint, hv]

/-- Witness for C4 at concrete times. -/
theorem C4_witness :
    register freshDB 0 0 ⟨some "alice", some "pw123"⟩ =
        (.ok (create_token 1 "alice" 0) "alice",
          ⟨[⟨1, "alice", ⟨0, "pw123"⟩, 0⟩], 2⟩) ∧
      login (⟨[⟨1, "alice", ⟨0, "pw123"⟩, 0⟩], 2⟩ : DB) 1
          ⟨some "alice", some "pw123"⟩ =
        .ok (create_token 1 "alice" 1) "alice" ∧
      me_endpoint (some (create_token 1 "alice" 1)) 2 = .ok "alice" ∧
      login (⟨[⟨1, "alice", ⟨0, "pw123"⟩, 0⟩], 2⟩ : DB) 1
          ⟨some "alice", some "wrong"⟩ =
        .err 401 "invalid credentials" :=
  C4_end_to_end 0 1 2 0 (by decide)

/-- C5: whenever the trimmed username or the password is empty or missing,
both `register` and `login` answer 400 "username and password required";
`register` leaves the user table unchanged and neither issues a token. -/
theorem C5_empty_fields_rejected (db : DB) (now : Int) (salt : Nat)
    (body : ReqBody)
    (h : strEmpty (pyStrip (body.username.getD "")) = true ∨
      strEmpty (body.password.getD "") = true) :
    register db now salt body =
        (.err 400 "username and password required", db) ∧
      login db now body = .err 400 "username and password required" := by
  have hc : (strEmpty (pyStrip (body.username.getD "")) ||
      strEmpty (body.password.getD "")) = true := by
    rcases h with h | h <;> simp [h]
  constructor
  · simp only [register]
    rw [hc]
    simp only [if_true]
  · simp only [login]
    rw [hc]
    simp only [if_true]

/-- Witness for C5: a missing username with a non-empty password. -/
theorem C5_witness :
    register freshDB 0 0 ⟨none, some "pw"⟩ =
        (.err 400 "username and password required", freshDB) ∧
      login freshDB 0 ⟨none, some "pw"⟩ =
        .err 400 "username and password required" :=
  C5_empty_fields_rejected freshDB 0 0 ⟨none, some "pw"⟩ (Or.inl (by decide))

/-- C6: login failure is indistinguishable between its two causes: an
unknown (trimmed) username in one run and a present username with a
failing password check in another run produce the same 401
"invalid credentials" result. -/
theorem C6_login_failures_indistinguishable (db1 db2 : DB)
    (now1 now2 : Int) (u1 p1 u2 p2 : String)
    (hu1 : strEmpty (pyStrip u1) = false) (hp1 : strEmpty p1 = false)
    (hu2 : strEmpty (pyStrip u2) = false) (hp2 : strEmpty p2 = false)
    (habs : findUser db1 (pyStrip u1) = none)
    (row : UserRow) (hrow : findUser db2 (pyStrip u2) = some row)
    (hbad : check_password_hash row.password_hash p2 = false) :
    login db1 now1 ⟨some u1, some p1⟩ = login db2 now2 ⟨some u2, some p2⟩ ∧
      login db1 now1 ⟨some u1, some p1⟩ = .err 401 "invalid credentials" := by
  have h1 : login db1 now1 ⟨some u1, some p1⟩ =
      .err 401 "invalid credentials" := by
    simp only [login, Option.getD_some]
    rw [hu1, hp1]
    simp only [Bool.or_self, Bool.false_eq_true, if_false]
    rw [habs]
  have h2 : login db2 now2 ⟨some u2, some p2⟩ =
      .err 401 "invalid credentials" := by
    simp only [login, Option.getD_some]
    rw [hu2, hp2]
    simp only [Bool.or_self, Bool.false_eq_true, if_false]
    rw [hrow]
    simp [hbad]
  exact ⟨h1.trans h2.symm, h1⟩

/-- Witness for C6: unknown user `a` on an empty store versus wrong
password for existing user `b`. -/
theorem C6_witness :
    login freshDB 0 ⟨some "a", some "x"⟩ =
        login (⟨[⟨1, "b", ⟨0, "y"⟩, 0⟩], 2⟩ : DB) 9 ⟨some "b", some "z"⟩ ∧
      login freshDB 0 ⟨some "a", some "x"⟩ =
        .err 401 "invalid credentials" :=
  C6_login_failures_indistinguishable freshDB ⟨[⟨1, "b", ⟨0, "y"⟩, 0⟩], 2⟩
    0 9 "a" "x" "b" "z" (by decide) (by decide) (by decide) (by decide)
    rfl ⟨1, "b", ⟨0, "y"⟩, 0⟩ rfl (by decide)

/-- C7: with the correct admin secret and an existing server document `D`
whose `updated_at` is a timestamp `prev ≤ now`, the merge-update answers
200 with the merged document, persists exactly that document, leaves every
top-level field of `D` not named in the partial update `P` (and not
`updated_at`) unchanged, and sets `updated_at` to `now ≥ prev`. -/
theorem C7_admin_merge_frame (fs : FileStore) (D P : List (String × Json))
    (now prev : Int)
    (hstored : read_json_file fs "server.json" = some (Json.obj D))
    (hprev : lookupKey D "updated_at" = some (Json.num prev))
    (hmono : prev ≤ now) :
    admin_update_server (some SECRET_KEY) none fs P now =
        some ⟨200, some (setKey (dictUpdate D P) "updated_at" (Json.num now)),
          setKey fs "server.json"
            (Json.obj (setKey (dictUpdate D P) "updated_at" (Json.num now)))⟩ ∧
      (∀ k, k ∉ P.map Prod.fst → k ≠ "updated_at" →
        lookupKey (setKey (dictUpdate D P) "updated_at" (Json.num now)) k =
          lookupKey D k) ∧
      lookupKey (setKey (dictUpdate D P) "updated_at" (Json.num now))
          "updated_at" = some (Json.num now) ∧
      prev ≤ now ∧
      read_json_file
          (setKey fs "server.json"
            (Json.obj (setKey (dictUpdate D P) "updated_at" (Json.num now))))
          "server.json" =
        some (Json.obj (setKey (dictUpdate D P) "updated_at" (Json.num now))) := by
  refine ⟨?_, ?_, lookupKey_setKey_self _ _ _, hmono,
    lookupKey_setKey_self _ _ _⟩
  · cases D with
    | nil => simp [lookupKey] at hprev
    | cons d0 D' =>
        simp only [admin_update_server]
        rw [hstored]
        rfl
  · intro k hk hk'
    rw [lookupKey_setKey_ne _ _ _ _ hk',
      lookupKey_dictUpdate_of_not_mem _ _ _ hk]

/-- Witness for C7: merging `{"players_online": 5}` into a concrete
server document. -/
theorem C7_witness :
    admin_update_server (some SECRET_KEY) none
        [("server.json",
          Json.obj [("name", Json.str "s"), ("updated_at", Json.num 5)])]
        [("players_online", Json.num 5)] 10 =
        some ⟨200,
          some (setKey
            (dictUpdate [("name", Json.str "s"), ("updated_at", Json.num 5)]
              [("players_online", Json.num 5)])
            "updated_at" (Json.num 10)),
          setKey [("server.json",
              Json.obj [("name", Json.str "s"), ("updated_at", Json.num 5)])]
            "server.json"
            (Json.obj (setKey
              (dictUpdate
                [("name", Json.str "s"), ("updated_at", Json.num 5)]
                [("players_online", Json.num 5)])
              "updated_at" (Json.num 10)))⟩ ∧
      (∀ k, k ∉ [("players_online", Json.num 5)].map Prod.fst →
        k ≠ "updated_at" →
        lookupKey (setKey
            (dictUpdate [("name", Json.str "s"), ("updated_at", Json.num 5)]
              [("players_online", Json.num 5)])
            "updated_at" (Json.num 10)) k =
          lookupKey [("name", Json.str "s"), ("updated_at", Json.num 5)] k) ∧
      lookupKey (setKey
          (dictUpdate [("name", Json.str "s"), ("updated_at", Json.num 5)]
            [("players_online", Json.num 5)])
          "updated_at" (Json.num 10)) "updated_at" = some (Json.num 10) ∧
      (5 : Int) ≤ 10 ∧
      read_json_file
          (setKey [("server.json",
              Json.obj [("name", Json.str "s"), ("updated_at", Json.num 5)])]
            "server.json"
            (Json.obj (setKey
              (dictUpdate
                [("name", Json.str "s"), ("updated_at", Json.num 5)]
                [("players_online", Json.num 5)])
              "updated_at" (Json.num 10))))
          "server.json" =
        some (Json.obj (setKey
          (dictUpdate [("name", Json.str "s"), ("updated_at", Json.num 5)]
            [("players_online", Json.num 5)])
          "updated_at" (Json.num 10))) :=
  C7_admin_merge_frame
    [("server.json",
      Json.obj [("name", Json.str "s"), ("updated_at", Json.num 5)])]
    [("name", Json.str "s"), ("updated_at", Json.num 5)]
    [("players_online", Json.num 5)] 10 5 rfl rfl (by decide)

/-- C8 fails as stated: `version.json` is present (here with the falsy
content `{}`), yet `/version` answers 404 instead of the stored document. -/
theorem C8_counterexample :
    read_json_file [("version.json", Json.obj [])] "version.json" =
        some (Json.obj []) ∧
      version_endpoint [("version.json", Json.obj [])] =
        .notFound "version file not found" :=
  ⟨rfl, rfl⟩

/-- C8 (amended): `/version` answers the stored `version.json` content
when it is present and truthy; when `version.json` is missing or falsy it
falls back to `update.json`, answering its content when present and
truthy; it answers 404 only when both are missing or falsy. -/
theorem C8_version_read (fs : FileStore) :
    (∀ j, read_json_file fs "version.json" = some j → j.isFalsy = false →
        version_endpoint fs = .ok j) ∧
      ((read_json_file fs "version.json" = none ∨
          ∃ j, read_json_file fs "version.json" = some j ∧
            j.isFalsy = true) →
        (∀ j, read_json_file fs "update.json" = some j → j.isFalsy = false →
            version_endpoint fs = .ok j) ∧
          ((read_json_file fs "update.json" = none ∨
              ∃ j, read_json_file fs "update.json" = some j ∧
                j.isFalsy = true) →
            version_endpoint fs = .notFound "version file not found")) := by
  constructor
  · intro j hj hfy
    unfold version_endpoint
    rw [hj]
    simp [pyOrJson, hfy]
  · intro hv
    have hv' : pyOrJson (read_json_file fs "version.json")
        (read_json_file fs "update.json") =
          read_json_file fs "update.json" := by
      rcases hv with h | ⟨j, hj, hfy⟩
      · rw [h]
        rfl
      · rw [hj]
        simp [pyOrJson, hfy]
    constructor
    · intro j hj hfy
      unfold version_endpoint
      rw [hv', hj]
      simp [hfy]
    · intro hu
      unfold version_endpoint
      rw [hv']
      rcases hu with h | ⟨j, hj, hfy⟩
      · rw [h]
      · rw [hj]
        simp [hfy]

/-- Witness for C8 (amended): a truthy `version.json` is answered as-is. -/
theorem C8_witness :
    version_endpoint [("version.json", Json.num 1)] = .ok (Json.num 1) :=
  (C8_version_read [("version.json", Json.num 1)]).1 (Json.num 1) rfl rfl

/-- C9: in the opaque-token variant, validating an invalidated token
answers `Invalid` (`none`), invalidating is idempotent, and the logout
endpoint always answers 200. -/
theorem C9_invalidate_permanent (sessions : Sessions) (token : String)
    (t? : Option String) :
    validate (invalidate sessions token) token = none ∧
      invalidate (invalidate sessions token) token =
        invalidate sessions token ∧
      (logout sessions t?).1 = 200 := by
  refine ⟨?_, ?_, rfl⟩
  · have hfind : (invalidate sessions token).find?
        (fun p => p.1 == token) = none := by
      rw [List.find?_eq_none]
      intro x hx
      have hxm := List.of_mem_filter hx
      simp only [bne_iff_ne, ne_eq] at hxm
      simpa using hxm
    simp [validate, hfind]
  · unfold invalidate
    rw [List.filter_eq_self]
    intro a ha
    have h3 := List.of_mem_filter ha
    exact h3

/-- C10: `/news` and `/mods` answer their defaults `{"news": []}` /
`{"mods": []}` not only when the file is absent but whenever the parsed
content is falsy; otherwise they answer the stored content verbatim. -/
theorem C10_news_mods_default_on_falsy (fs : FileStore) :
    ((read_json_file fs "news.json" = none ∨
        ∃ j, read_json_file fs "news.json" = some j ∧ j.isFalsy = true) →
      news_endpoint fs = Json.obj [("news", Json.arr [])]) ∧
      (∀ j, read_json_file fs "news.json" = some j → j.isFalsy = false →
        news_endpoint fs = j) ∧
      ((read_json_file fs "mods.json" = none ∨
          ∃ j, read_json_file fs "mods.json" = some j ∧ j.isFalsy = true) →
        mods_endpoint fs = Json.obj [("mods", Json.arr [])]) ∧
      (∀ j, read_json_file fs "mods.json" = some j → j.isFalsy = false →
        mods_endpoint fs = j) := by
  refine ⟨?_, ?_, ?_, ?_⟩
  · intro h
    unfold news_endpoint
    rcases h with h | ⟨j, hj, hfy⟩
    · rw [h]
    · rw [hj]
      simp [hfy]
  · intro j hj hfy
    unfold news_endpoint
    rw [hj]
    simp [hfy]
  · intro h
    unfold mods_endpoint
    rcases h with h | ⟨j, hj, hfy⟩
    · rw [h]
    · rw [hj]
      simp [hfy]
  · intro j hj hfy
    unfold mods_endpoint
    rw [hj]
    simp [hfy]

/-- Witness for C10: an absent `news.json` and a present-but-falsy
`mods.json` both answer the defaults; truthy content is verbatim. -/
theorem C10_witness :
    news_endpoint [("mods.json", Json.arr [])] =
        Json.obj [("news", Json.arr [])] ∧
      mods_endpoint [("mods.json", Json.arr [])] =
        Json.obj [("mods", Json.arr [])] :=
  ⟨(C10_news_mods_default_on_falsy [("mods.json", Json.arr [])]).1
      (Or.inl rfl),
    (C10_news_mods_default_on_falsy [("mods.json", Json.arr [])]).2.2.1
      (Or.inr ⟨Json.arr [], rfl, rfl⟩)⟩

end LauncherApi
